import Mathlib

/-!
Shallow embedding of the dht22m Linux driver core (src/dht22m.c).

The embedding models the single shared `struct dht22_state`, the
interrupt-context edge recorder `s_handle_edge`, the session controller
`sensor_start_read`, the pulse decoder `sensor_decode_pulses`, the byte
parser `sensor_parse_bytes`, and the combined read operation
`chardevice_open`.

Modelling conventions:
  * `ktime_t` values are `Int` nanoseconds (the kernel's signed 64-bit
    nanosecond count; monotonic clock values never approach overflow, so
    plain `Int` is faithful).  `ktime_to_us` / `ktime_to_ms` divide by
    1000 / 1000000 with C's truncation-towards-zero (`Int.tdiv`).
  * C arrays become total functions `Nat -> _`; an in-bounds C access is
    an application, and the model makes visible when the C code indexes
    past the declared bound (see `timestamps_sizeof` below).
  * `num_edges` is a C `int` that the code only ever sets to 0/1 or
    increments, so it is modelled as `Nat`; the C guard `num_edges <= 0`
    is kept literally.
  * The GPIO drive calls (`gpio_direction_output`, `gpio_set_value`,
    `gpio_direction_input`) are environment effects; their success or
    failure is passed in as booleans.  The interrupts arriving during the
    `msleep(20)` settle window of `chardevice_open` are passed in as a
    list of (gpio, timestamp) events.  `kmalloc` is modelled as
    succeeding (the -ENOMEM early returns are the only paths not
    represented).
-/

/-- C macro DHT22M_WAIT_MILLISECOND_AFTER_READ. -/
def DHT22M_WAIT_MILLISECOND_AFTER_READ : Int := 2100

/-- C macro DHT22M_STATES_ZEROCONF. -/
def DHT22M_STATES_ZEROCONF : Nat := 0

/-- C macro DHT22M_STATES_CONFIGURED. -/
def DHT22M_STATES_CONFIGURED : Nat := 1

/-- C macro DTH22M_READSTATE_COLLECT. -/
def DTH22M_READSTATE_COLLECT : Nat := 0

/-- C macro DTH22M_READSTATE_OK. -/
def DTH22M_READSTATE_OK : Nat := 1

/-- C macro DTH22M_READSTATE_CHKSUMERR. -/
def DTH22M_READSTATE_CHKSUMERR : Nat := 2

/-- C macro DTH22M_READSTATE_OTHERR. -/
def DTH22M_READSTATE_OTHERR : Nat := 3

/-- C macro DTH22M_READSTATE_TOOSOON. -/
def DTH22M_READSTATE_TOOSOON : Nat := 4

/-- C macro DTH22M_READSTATE_NEXT. -/
def DTH22M_READSTATE_NEXT : Nat := 5

/-- Linux errno EBUSY (the driver returns -EBUSY). -/
def ebusyErr : Int := 16

/-- Linux errno EIO (the driver returns -EIO). -/
def eioErr : Int := 5

/--
Value of the C expression `sizeof sensor_state.timestamps` used as the
bound in `s_handle_edge`.  The field is declared
`ktime_t timestamps[1 + 2 + 5*8]`, i.e. 43 elements of 8 bytes each, so
`sizeof` yields the byte size 344 — not the element count 43.
-/
def timestamps_sizeof : Nat := 43 * 8

/-- `ktime_to_us`: signed 64-bit nanoseconds to microseconds, truncating
towards zero as C integer division does. -/
def ktime_to_us (t : Int) : Int := Int.tdiv t 1000

/-- `ktime_to_ms`: signed 64-bit nanoseconds to milliseconds, truncating
towards zero as C integer division does. -/
def ktime_to_ms (t : Int) : Int := Int.tdiv t 1000000

/-- The single shared `struct dht22_state` of the driver. -/
structure dht22_state where
  gpio : Int
  readstate : Nat
  num_edges : Nat
  timestamps : Nat → Int
  bytes : Nat → Nat
  read_timestamp : Int
  negative : Bool
  temperature : Int
  humidity : Int

/-- The module-level configuration arrays read by `sensor_start_read`:
`sensor_states[]` and `gpio_pins[]` (both indexed by sensor slot). -/
structure dht22_globals where
  sensor_states : Nat → Nat
  gpio_pins : Nat → Int

/--
`s_handle_edge()` — falling-edge interrupt handler (dht22m.c lines
126-151).  `gpio_num` is `*(int *)dev_id`, the pin number of the channel
whose interrupt fired; `now` is `ktime_get()` at entry.  The body runs
under `sensor_lock`; the model applies it atomically to the state.
-/
def s_handle_edge (gpio_num : Int) (now : Int) (s : dht22_state) : dht22_state :=
  if s.readstate ≠ DTH22M_READSTATE_COLLECT then s
  else if s.gpio ≠ gpio_num then s
  else if s.num_edges ≤ 0 then s
  else if s.num_edges = 1 ∧ ktime_to_us (now - s.timestamps 0) < 500 then s
  else if s.num_edges < timestamps_sizeof then
    { s with timestamps := Function.update s.timestamps s.num_edges now,
             num_edges := s.num_edges + 1 }
  else s

/--
`sensor_start_read()` — begin a read on slot `sensor_index` (dht22m.c
lines 168-232).  `now` is `ktime_get()` at entry.  `dir_out_fail` /
`dir_in_fail` model the return values of `gpio_direction_output` /
`gpio_direction_input` (true = nonzero = failure).  Returns the C int
result (0, -EBUSY or -EIO) paired with the updated `sensor_state`.
-/
def sensor_start_read (g : dht22_globals) (now : Int) (sensor_index : Nat)
    (dir_out_fail dir_in_fail : Bool) (s : dht22_state) : Int × dht22_state :=
  if s.readstate ≠ DTH22M_READSTATE_NEXT then
    (-ebusyErr, s)
  else if g.sensor_states sensor_index ≠ DHT22M_STATES_CONFIGURED then
    (-eioErr, { s with readstate := DTH22M_READSTATE_OTHERR })
  else if s.gpio = g.gpio_pins sensor_index ∧
      ktime_to_ms (now - s.read_timestamp) < DHT22M_WAIT_MILLISECOND_AFTER_READ then
    (-ebusyErr, { s with readstate := DTH22M_READSTATE_TOOSOON })
  else
    let armed : dht22_state :=
      { s with gpio := g.gpio_pins sensor_index,
               readstate := DTH22M_READSTATE_COLLECT,
               negative := false,
               temperature := 0,
               humidity := 0,
               timestamps := Function.update s.timestamps 0 now,
               num_edges := 1 }
    if dir_out_fail then
      (-eioErr, { armed with readstate := DTH22M_READSTATE_OTHERR })
    else if dir_in_fail then
      (-eioErr, { armed with readstate := DTH22M_READSTATE_OTHERR })
    else
      (0, armed)

/-- One iteration of the bit-extraction loop of `sensor_decode_pulses`
(dht22m.c lines 260-280) at loop index `i`: if the pulse between
timestamps `i+2` and `i+3` is wider than 101 µs, OR bit `7 - i%8` into
`bytes[i/8]`. -/
def decode_step (ts : Nat → Int) (i : Nat) (b : Nat → Nat) : Nat → Nat :=
  if 101 < ktime_to_us (ts (i + 3) - ts (i + 2)) then
    Function.update b (i / 8) (b (i / 8) ||| (1 <<< (7 - i % 8)))
  else b

/-- The bit-extraction loop of `sensor_decode_pulses` run for iterations
`i = 0, 1, ..., n-1` in order (iteration 0 applied first). -/
def decode_loop (ts : Nat → Int) : Nat → (Nat → Nat) → (Nat → Nat)
  | 0, b => b
  | n + 1, b => decode_step ts n (decode_loop ts n b)

/-- The byte array produced by the bit-extraction loop of
`sensor_decode_pulses`: `bytes` zeroed by `memset` and then 40 loop
iterations applied. -/
def decoded_bytes (s : dht22_state) : Nat → Nat :=
  decode_loop s.timestamps (5 * 8) (fun _ => 0)

/--
`sensor_decode_pulses()` — decode pulse widths and validate the checksum
(dht22m.c lines 244-289).  Returns the C int result (0 or -EIO) paired
with the updated state.  `memset(bytes, 0, ...)` is the constant-zero
function; the checksum sum is computed in `u8`, i.e. modulo 256.
-/
def sensor_decode_pulses (s : dht22_state) : Int × dht22_state :=
  if s.num_edges < 5 * 8 + 3 then
    (-eioErr, { s with readstate := DTH22M_READSTATE_OTHERR })
  else
    let b : Nat → Nat := decoded_bytes s
    let sum : Nat := (b 0 + b 1 + b 2 + b 3) % 256
    if sum ≠ b 4 then
      (0, { s with bytes := b, readstate := DTH22M_READSTATE_CHKSUMERR })
    else
      (0, { s with bytes := b, readstate := DTH22M_READSTATE_OK })

/--
`sensor_parse_bytes()` — run the decoder and, on DTH22M_READSTATE_OK,
store the measurement fields (dht22m.c lines 300-318).  The C function
always returns 0, so the model returns just the state.
-/
def sensor_parse_bytes (s : dht22_state) : dht22_state :=
  let s1 := (sensor_decode_pulses s).2
  if s1.readstate ≠ DTH22M_READSTATE_OK then s1
  else
    { s1 with
        read_timestamp := s1.timestamps (s1.num_edges - 1),
        negative := (s1.bytes 2 &&& 0x80) ≠ 0,
        humidity := ((s1.bytes 0 * 256 + s1.bytes 1 : Nat) : Int),
        temperature := (((s1.bytes 2 &&& 0x7F) * 256 + s1.bytes 3 : Nat) : Int) }

/--
`chardevice_open()` — the combined read operation behind an open() of a
/dev/dht22mX character device (dht22m.c lines 509-583).  `minor` is the
device minor number; `edges` are the falling-edge interrupts delivered
during the `msleep(20)` settle window, in order.  Returns the C int
result of open (0 in this model, since kmalloc is modelled as
succeeding), the message placed in `file->private_data`, and the final
`sensor_state`.
-/
def chardevice_open (g : dht22_globals) (now : Int) (minor : Nat)
    (dir_out_fail dir_in_fail : Bool) (edges : List (Int × Int))
    (s : dht22_state) : Int × String × dht22_state :=
  let res := sensor_start_read g now minor dir_out_fail dir_in_fail s
  if res.1 ≠ 0 then
    let s2 := { res.2 with readstate := DTH22M_READSTATE_NEXT }
    let message := if res.1 = -ebusyErr then "ReaderBusy\n" else "IOError\n"
    (0, message, s2)
  else
    let s2 := edges.foldl (fun st e => s_handle_edge e.1 e.2 st) res.2
    let s3 := sensor_parse_bytes s2
    let sign : String := if s3.negative then "-" else ""
    let hum_int := Int.tdiv s3.humidity 10
    let hum_frac := Int.tmod s3.humidity 10
    let temp_int := Int.tdiv s3.temperature 10
    let temp_frac := Int.tmod s3.temperature 10
    let message :=
      if s3.readstate = DTH22M_READSTATE_OK then
        "Ok;" ++ sign ++ toString temp_int ++ "." ++ toString temp_frac ++ ";"
          ++ toString hum_int ++ "." ++ toString hum_frac ++ "\n"
      else if s3.readstate = DTH22M_READSTATE_CHKSUMERR then "ChecksumError\n"
      else if s3.readstate = DTH22M_READSTATE_TOOSOON then "ReadTooSoon\n"
      else if s3.readstate = DTH22M_READSTATE_COLLECT then "NotRead\n"
      else "IOError\n"
    (0, message, { s3 with readstate := DTH22M_READSTATE_NEXT })

/-! ## General lemmas about the embedding -/

/-- Bit `7 - k` (for `k < 8`) of byte `j` after `n` iterations of the
bit-extraction loop is set exactly when loop index `8*j + k` has already
been processed and its pulse was wider than 101 µs. -/
lemma decode_loop_testBit (ts : Nat → Int) (n j k : Nat) (hk : k < 8) :
    (decode_loop ts n (fun _ => 0) j).testBit (7 - k) =
      (decide (8 * j + k < n) &&
        decide (101 < ktime_to_us (ts (8 * j + k + 3) - ts (8 * j + k + 2)))) := by
  induction n with
  | zero =>
    simp [decode_loop, Nat.zero_testBit]
  | succ n ih =>
    rw [decode_loop]
    unfold decode_step
    by_cases hw : 101 < ktime_to_us (ts (n + 3) - ts (n + 2))
    · rw [if_pos hw]
      by_cases hj : j = n / 8
      · subst hj
        rw [Function.update_same, Nat.testBit_or, ih, Nat.one_shiftLeft,
          Nat.testBit_two_pow]
        by_cases hkn : k = n % 8
        · have he : 8 * (n / 8) + k = n := by omega
          have h1 : decide (7 - n % 8 = 7 - k) = true := by
            simp only [decide_eq_true_eq]; omega
          have h2 : decide (8 * (n / 8) + k < n + 1) = true := by
            simp only [decide_eq_true_eq]; omega
          rw [h1, h2, he]
          simp [hw]
        · have h1 : decide (7 - n % 8 = 7 - k) = false := by
            simp only [decide_eq_false_iff_not]; omega
          have h2 : decide (8 * (n / 8) + k < n + 1) = decide (8 * (n / 8) + k < n) := by
            rw [decide_eq_decide]; omega
          rw [h1, h2, Bool.or_false]
      · rw [Function.update_noteq hj, ih]
        have h2 : decide (8 * j + k < n + 1) = decide (8 * j + k < n) := by
          rw [decide_eq_decide]; omega
        rw [h2]
    · rw [if_neg hw, ih]
      by_cases he : 8 * j + k = n
      · have h3 : decide (101 < ktime_to_us (ts (8 * j + k + 3) - ts (8 * j + k + 2))) = false := by
          simp only [decide_eq_false_iff_not]
          rw [he] at *
          exact hw
        rw [h3]
        simp
      · have h2 : decide (8 * j + k < n + 1) = decide (8 * j + k < n) := by
          rw [decide_eq_decide]; omega
        rw [h2]

/-- `b & 0x80` is nonzero exactly when bit 7 of `b` is set. -/
lemma and_0x80_ne_zero_eq_testBit (b : Nat) :
    (decide ((b &&& 0x80) ≠ 0)) = b.testBit 7 := by
  have h128 : b &&& 0x80 = (b.testBit 7).toNat * 2 ^ 7 := by
    have h := Nat.and_two_pow b 7
    norm_num at h ⊢
    exact h
  cases hb : b.testBit 7 <;> rw [hb] at h128 <;> simp [h128]

/-- With at least 43 recorded edges, `sensor_decode_pulses` runs the
bit-extraction loop and branches only on the checksum test. -/
lemma sensor_decode_pulses_of_ge (s : dht22_state) (h43 : 5 * 8 + 3 ≤ s.num_edges) :
    sensor_decode_pulses s =
      if (decoded_bytes s 0 + decoded_bytes s 1 + decoded_bytes s 2 +
          decoded_bytes s 3) % 256 ≠ decoded_bytes s 4 then
        (0, { s with bytes := decoded_bytes s, readstate := DTH22M_READSTATE_CHKSUMERR })
      else
        (0, { s with bytes := decoded_bytes s, readstate := DTH22M_READSTATE_OK }) := by
  unfold sensor_decode_pulses
  rw [if_neg (by omega)]

/-! ## Concrete states used by counterexamples and witnesses -/

/-- An idle session state: readstate NEXT, gpio 4, everything else zeroed
(the module-load initial state after a hypothetical completed read whose
`read_timestamp` is 0). -/
def base_state : dht22_state :=
  { gpio := 4, readstate := DTH22M_READSTATE_NEXT, num_edges := 0,
    timestamps := fun _ => 0, bytes := fun _ => 0, read_timestamp := 0,
    negative := false, temperature := 0, humidity := 0 }

/-- Globals with every slot CONFIGURED and every pin number 4. -/
def cfg_globals : dht22_globals :=
  { sensor_states := fun _ => DHT22M_STATES_CONFIGURED, gpio_pins := fun _ => 4 }

/-- Globals with every slot still ZEROCONF (never configured). -/
def zero_globals : dht22_globals :=
  { sensor_states := fun _ => DHT22M_STATES_ZEROCONF, gpio_pins := fun _ => 4 }

/-- A collecting session on gpio 4 that has already recorded 43 edges
(the full protocol frame). -/
def full_state : dht22_state :=
  { base_state with readstate := DTH22M_READSTATE_COLLECT, num_edges := 43 }

/-! ## Claim theorems -/

/--
C1: the claim states that `edge_count` never exceeds the capacity of 43
recorded timestamps and that every edge event arriving once
`edge_count == 43` is dropped.  The code violates this: the capacity
guard in `s_handle_edge` is `num_edges < sizeof sensor_state.timestamps`,
and `sizeof` yields the byte size 344 of the 43-element `ktime_t` array,
not the element count.  Evaluated at a state that has already recorded
all 43 edges, a further matching edge is appended (writing
`timestamps[43]`, past the declared array) and `num_edges` becomes 44.
-/
theorem C1_capacity_guard_overruns :
    (s_handle_edge 4 123456 full_state).num_edges = 44 ∧
    (s_handle_edge 4 123456 full_state).timestamps 43 = 123456 := by
  constructor <;> decide

/--
C2: the claim states that a `begin_read` on the channel that owned the
previous completed read, less than 2100 ms after `last_read_timestamp`,
yields the TooSoon outcome with outward string "ReadTooSoon", not Busy.
Evaluated at such an input (same gpio, 1000 ms elapsed, phase Idle,
channel Ready): `sensor_start_read` does set the phase to
DTH22M_READSTATE_TOOSOON without arming collection, but it returns
`-EBUSY` — the same value as the busy case — so `chardevice_open`
takes its error path, resets the phase to DTH22M_READSTATE_NEXT and
emits "ReaderBusy\n"; the "ReadTooSoon\n" branch is unreachable.
-/
theorem C2_toosoon_reported_as_busy :
    (sensor_start_read cfg_globals 1000000000 0 false false base_state).1 = -ebusyErr ∧
    (sensor_start_read cfg_globals 1000000000 0 false false base_state).2.readstate =
      DTH22M_READSTATE_TOOSOON ∧
    (chardevice_open cfg_globals 1000000000 0 false false [] base_state).2.1 =
      "ReaderBusy\n" ∧
    (chardevice_open cfg_globals 1000000000 0 false false [] base_state).2.2.readstate =
      DTH22M_READSTATE_NEXT := by
  refine ⟨by decide, by decide, ?_, by decide⟩
  rfl

/--
C3 counterexample: the claim states that a `begin_read` on a
non-Ready channel leaves the phase Idle.  At the concrete input
(phase NEXT, slot 0 ZEROCONF), `sensor_start_read` sets the phase to
DTH22M_READSTATE_OTHERR, so it does not remain DTH22M_READSTATE_NEXT.
-/
theorem C3_phase_not_left_idle :
    ¬ ((sensor_start_read zero_globals 1000000000 0 false false base_state).2.readstate =
        DTH22M_READSTATE_NEXT) := by
  decide

/--
C3 (amended): when `begin_read` is called while the phase is Idle but the
requested channel's configuration record is not Ready, the call fails
with `-EIO` (surfaced outwardly as "IOError") and sets the phase to
Complete-OtherError; no session is armed — `active_channel`,
`edge_count` and `edge_timestamps` are unchanged — and the enclosing
`chardevice_open` resets the phase to Idle before returning.
-/
theorem C3_channel_unavailable_amended (g : dht22_globals) (now : Int)
    (idx : Nat) (dof dif : Bool) (edges : List (Int × Int)) (s : dht22_state)
    (h1 : s.readstate = DTH22M_READSTATE_NEXT)
    (h2 : g.sensor_states idx ≠ DHT22M_STATES_CONFIGURED) :
    (sensor_start_read g now idx dof dif s).1 = -eioErr ∧
    (sensor_start_read g now idx dof dif s).2.readstate = DTH22M_READSTATE_OTHERR ∧
    (sensor_start_read g now idx dof dif s).2.gpio = s.gpio ∧
    (sensor_start_read g now idx dof dif s).2.num_edges = s.num_edges ∧
    (sensor_start_read g now idx dof dif s).2.timestamps = s.timestamps ∧
    (chardevice_open g now idx dof dif edges s).2.1 = "IOError\n" ∧
    (chardevice_open g now idx dof dif edges s).2.2.readstate = DTH22M_READSTATE_NEXT := by
  have hs : sensor_start_read g now idx dof dif s =
      (-eioErr, { s with readstate := DTH22M_READSTATE_OTHERR }) := by
    unfold sensor_start_read
    rw [if_neg (by simp [h1]), if_pos h2]
  refine ⟨by rw [hs], by rw [hs], by rw [hs], by rw [hs], by rw [hs], ?_, ?_⟩
  · unfold chardevice_open
    rw [hs]
    norm_num [ebusyErr, eioErr]
  · unfold chardevice_open
    rw [hs]
    norm_num [ebusyErr, eioErr]

/-- C3 witness: the amended theorem applied at the concrete non-Ready
input used by the counterexample. -/
theorem C3_channel_unavailable_amended_witness :
    base_state.readstate = DTH22M_READSTATE_NEXT ∧
    zero_globals.sensor_states 0 ≠ DHT22M_STATES_CONFIGURED ∧
    (sensor_start_read zero_globals 1000000000 0 false false base_state).1 = -eioErr ∧
    (chardevice_open zero_globals 1000000000 0 false false [] base_state).2.1 =
      "IOError\n" :=
  ⟨by decide, by decide,
    (C3_channel_unavailable_amended zero_globals 1000000000 0 false false [] base_state
      (by decide) (by decide)).1,
    (C3_channel_unavailable_amended zero_globals 1000000000 0 false false [] base_state
      (by decide) (by decide)).2.2.2.2.2.1⟩

/--
C4: whenever the session phase is not Idle (DTH22M_READSTATE_NEXT) —
i.e. Collecting or any unconsumed Complete-* state — `sensor_start_read`
returns `-EBUSY` and leaves the whole session state unchanged, in
particular `num_edges`, `timestamps` and the owning `gpio`.
-/
theorem C4_busy_rejects_without_mutation (g : dht22_globals) (now : Int)
    (idx : Nat) (dof dif : Bool) (s : dht22_state)
    (h : s.readstate ≠ DTH22M_READSTATE_NEXT) :
    (sensor_start_read g now idx dof dif s).1 = -ebusyErr ∧
    (sensor_start_read g now idx dof dif s).2 = s ∧
    (sensor_start_read g now idx dof dif s).2.num_edges = s.num_edges ∧
    (sensor_start_read g now idx dof dif s).2.timestamps = s.timestamps ∧
    (sensor_start_read g now idx dof dif s).2.gpio = s.gpio := by
  have hs : sensor_start_read g now idx dof dif s = (-ebusyErr, s) := by
    unfold sensor_start_read
    rw [if_pos h]
  exact ⟨by rw [hs], by rw [hs], by rw [hs], by rw [hs], by rw [hs]⟩

/-- C4 witness: a second start attempt while the session is Collecting
(the `full_state`) is rejected busy with nothing mutated. -/
theorem C4_busy_rejects_without_mutation_witness :
    full_state.readstate ≠ DTH22M_READSTATE_NEXT ∧
    (sensor_start_read cfg_globals 999 0 false false full_state).1 = -ebusyErr ∧
    (sensor_start_read cfg_globals 999 0 false false full_state).2.num_edges =
      full_state.num_edges :=
  ⟨by decide,
    (C4_busy_rejects_without_mutation cfg_globals 999 0 false false full_state
      (by decide)).1,
    (C4_busy_rejects_without_mutation cfg_globals 999 0 false false full_state
      (by decide)).2.2.1⟩

/--
C5: an edge-recorder invocation with phase Collecting, the matching
channel, and `num_edges == 1`: if the elapsed time since
`timestamps[0]` is under 500 µs the event is discarded (state unchanged,
no increment); if it is at least 500 µs the timestamp is appended at
index 1 and `num_edges` becomes 2.
-/
theorem C5_first_data_edge_filter (gpio_num now : Int) (s : dht22_state)
    (hph : s.readstate = DTH22M_READSTATE_COLLECT)
    (hg : s.gpio = gpio_num)
    (hn : s.num_edges = 1) :
    (ktime_to_us (now - s.timestamps 0) < 500 → s_handle_edge gpio_num now s = s) ∧
    (500 ≤ ktime_to_us (now - s.timestamps 0) →
      (s_handle_edge gpio_num now s).num_edges = 2 ∧
      (s_handle_edge gpio_num now s).timestamps 1 = now) := by
  constructor
  · intro hw
    unfold s_handle_edge
    rw [if_neg (by simp [hph]), if_neg (by simp [hg]), if_neg (by omega),
      if_pos ⟨hn, hw⟩]
  · intro hw
    have hs : s_handle_edge gpio_num now s =
        { s with timestamps := Function.update s.timestamps s.num_edges now,
                 num_edges := s.num_edges + 1 } := by
      unfold s_handle_edge
      rw [if_neg (by simp [hph]), if_neg (by simp [hg]), if_neg (by omega),
        if_neg (by rw [hn]; simp; omega), if_pos (by rw [hn]; decide)]
    rw [hs, hn]
    exact ⟨rfl, Function.update_same 1 now s.timestamps⟩

/-- A collecting session on gpio 4 holding only the start marker
(`num_edges = 1`, `timestamps[0] = 0`). -/
def c5_state : dht22_state :=
  { base_state with readstate := DTH22M_READSTATE_COLLECT, num_edges := 1 }

/-- C5 witness: with the start marker at time 0, an edge at 600 µs is
recorded as the second timestamp (and the discard implication holds
vacuously). -/
theorem C5_first_data_edge_filter_witness :
    c5_state.readstate = DTH22M_READSTATE_COLLECT ∧
    c5_state.num_edges = 1 ∧
    ((ktime_to_us ((600000 : Int) - c5_state.timestamps 0) < 500 →
        s_handle_edge 4 600000 c5_state = c5_state) ∧
      (500 ≤ ktime_to_us ((600000 : Int) - c5_state.timestamps 0) →
        (s_handle_edge 4 600000 c5_state).num_edges = 2 ∧
        (s_handle_edge 4 600000 c5_state).timestamps 1 = 600000)) :=
  ⟨by decide, by decide,
    C5_first_data_edge_filter 4 600000 c5_state (by decide) (by decide) (by decide)⟩

/--
C6: with exactly 43 recorded timestamps, the decoder derives data bit `i`
(for `i < 40`) from the pulse width `timestamps[i+3] - timestamps[i+2]`:
strictly more than 101 µs gives bit 1, otherwise bit 0, and the bits are
packed most-significant-first in transmission order — bit `i` lands in
byte `i / 8` at bit position `7 - i % 8` (so bytes 0-1 carry the first
16 bits = humidity, bytes 2-3 the next 16 = temperature+sign, byte 4 the
checksum, as consumed by `sensor_parse_bytes`).
-/
theorem C6_bit_extraction (s : dht22_state) (h : s.num_edges = 43)
    (i : Nat) (hi : i < 40) :
    ((sensor_decode_pulses s).2.bytes (i / 8)).testBit (7 - i % 8) =
      decide (101 < ktime_to_us (s.timestamps (i + 3) - s.timestamps (i + 2))) := by
  have hb : (sensor_decode_pulses s).2.bytes = decoded_bytes s := by
    rw [sensor_decode_pulses_of_ge s (by omega)]
    split <;> rfl
  have hk : i % 8 < 8 := Nat.mod_lt _ (by norm_num)
  have hmain := decode_loop_testBit s.timestamps (5 * 8) (i / 8) (i % 8) hk
  have he : 8 * (i / 8) + i % 8 = i := by omega
  rw [he] at hmain
  have ht : decide (i < 5 * 8) = true := by
    simp only [decide_eq_true_eq]; omega
  rw [hb]
  unfold decoded_bytes
  rw [hmain, ht, Bool.true_and]

/-- A collecting session that recorded 43 edges whose 40 data pulses are
all 80 µs wide except the last (bit 39), which is 120 µs wide; it decodes
to bytes 0,0,0,0,1, so the checksum fails. -/
def ladder_state : dht22_state :=
  { base_state with
    readstate := DTH22M_READSTATE_COLLECT,
    num_edges := 43,
    timestamps := fun i => if i < 42 then 80000 * (i : Int) else 3400000 }

/-- C6 witness: bit 39 of `ladder_state` has a 120 µs pulse and decodes
to a set bit 0 of byte 4. -/
theorem C6_bit_extraction_witness :
    ladder_state.num_edges = 43 ∧ (39 : Nat) < 40 ∧
    ((sensor_decode_pulses ladder_state).2.bytes (39 / 8)).testBit (7 - 39 % 8) =
      decide (101 < ktime_to_us (ladder_state.timestamps (39 + 3) -
        ladder_state.timestamps (39 + 2))) :=
  ⟨by decide, by decide, C6_bit_extraction ladder_state (by decide) 39 (by decide)⟩

/--
C7: when the decoder runs with at least 43 recorded edges and byte 4
equals the low-8-bit sum of bytes 0-3, `sensor_parse_bytes` leaves the
phase at Complete-Ok, sets `read_timestamp` to the timestamp of the final
recorded edge (`timestamps[num_edges - 1]`), sets humidity to
`bytes[0]*256 + bytes[1]` tenths, the temperature sign to bit 7 of byte
2, and the temperature magnitude to `(bytes[2] & 0x7F)*256 + bytes[3]`
tenths.
-/
theorem C7_checksum_ok_measurement (s : dht22_state)
    (h43 : 5 * 8 + 3 ≤ s.num_edges)
    (hsum : (decoded_bytes s 0 + decoded_bytes s 1 + decoded_bytes s 2 +
        decoded_bytes s 3) % 256 = decoded_bytes s 4) :
    (sensor_parse_bytes s).readstate = DTH22M_READSTATE_OK ∧
    (sensor_parse_bytes s).read_timestamp = s.timestamps (s.num_edges - 1) ∧
    (sensor_parse_bytes s).humidity =
      ((decoded_bytes s 0 * 256 + decoded_bytes s 1 : Nat) : Int) ∧
    (sensor_parse_bytes s).negative = (decoded_bytes s 2).testBit 7 ∧
    (sensor_parse_bytes s).temperature =
      (((decoded_bytes s 2 &&& 0x7F) * 256 + decoded_bytes s 3 : Nat) : Int) := by
  have hdec : sensor_decode_pulses s =
      (0, { s with bytes := decoded_bytes s, readstate := DTH22M_READSTATE_OK }) := by
    rw [sensor_decode_pulses_of_ge s h43, if_neg (by simp [hsum])]
  unfold sensor_parse_bytes
  rw [hdec]
  dsimp only
  split
  · rename_i hfalse
    exact absurd rfl hfalse
  · exact ⟨rfl, rfl, rfl, and_0x80_ne_zero_eq_testBit _, rfl⟩

/-- A collecting session that recorded 43 edges whose 40 data pulses are
all 80 µs wide; it decodes to bytes 0,0,0,0,0, whose checksum matches. -/
def flat_state : dht22_state :=
  { base_state with
    readstate := DTH22M_READSTATE_COLLECT,
    num_edges := 43,
    timestamps := fun i => 80000 * (i : Int) }

/-- C7 witness: the all-zero frame of `flat_state` parses to Complete-Ok
with `read_timestamp` the last edge (timestamp 3360000 ns), humidity 0
and a non-negative temperature of 0. -/
theorem C7_checksum_ok_measurement_witness :
    5 * 8 + 3 ≤ flat_state.num_edges ∧
    (decoded_bytes flat_state 0 + decoded_bytes flat_state 1 +
      decoded_bytes flat_state 2 + decoded_bytes flat_state 3) % 256 =
      decoded_bytes flat_state 4 ∧
    (sensor_parse_bytes flat_state).readstate = DTH22M_READSTATE_OK ∧
    (sensor_parse_bytes flat_state).read_timestamp =
      flat_state.timestamps (flat_state.num_edges - 1) :=
  ⟨by decide, by decide,
    (C7_checksum_ok_measurement flat_state (by decide) (by decide)).1,
    (C7_checksum_ok_measurement flat_state (by decide) (by decide)).2.1⟩

/--
C8: whenever fewer than 43 edges were recorded, `sensor_decode_pulses`
returns `-EIO` and the state with only the phase changed, to
Complete-OtherError.  The equation shows the early return happens before
the bit-extraction loop: no timestamp index is read at all (the result
does not depend on `timestamps`), and `bytes` is untouched, so no access
outside the valid recorded region occurs.
-/
theorem C8_insufficient_edges (s : dht22_state) (h : s.num_edges < 5 * 8 + 3) :
    sensor_decode_pulses s =
      (-eioErr, { s with readstate := DTH22M_READSTATE_OTHERR }) := by
  unfold sensor_decode_pulses
  rw [if_pos h]

/-- A collecting session that recorded only 42 edges (one short). -/
def short_state : dht22_state :=
  { base_state with readstate := DTH22M_READSTATE_COLLECT, num_edges := 42 }

/-- C8 witness: decoding the 42-edge `short_state` errors out with phase
Complete-OtherError and nothing else changed. -/
theorem C8_insufficient_edges_witness :
    short_state.num_edges < 5 * 8 + 3 ∧
    sensor_decode_pulses short_state =
      (-eioErr, { short_state with readstate := DTH22M_READSTATE_OTHERR }) :=
  ⟨by decide, C8_insufficient_edges short_state (by decide)⟩

/--
C9: when the decoder runs with at least 43 recorded edges and byte 4
differs from the low-8-bit sum of bytes 0-3, the phase becomes
Complete-ChecksumError (not Complete-Ok) and the measurement fields —
`negative`, `temperature`, `humidity` — and `read_timestamp` are left
unchanged.
-/
theorem C9_checksum_mismatch (s : dht22_state)
    (h43 : 5 * 8 + 3 ≤ s.num_edges)
    (hsum : (decoded_bytes s 0 + decoded_bytes s 1 + decoded_bytes s 2 +
        decoded_bytes s 3) % 256 ≠ decoded_bytes s 4) :
    (sensor_parse_bytes s).readstate = DTH22M_READSTATE_CHKSUMERR ∧
    (sensor_parse_bytes s).readstate ≠ DTH22M_READSTATE_OK ∧
    (sensor_parse_bytes s).negative = s.negative ∧
    (sensor_parse_bytes s).temperature = s.temperature ∧
    (sensor_parse_bytes s).humidity = s.humidity ∧
    (sensor_parse_bytes s).read_timestamp = s.read_timestamp := by
  have hdec : sensor_decode_pulses s =
      (0, { s with bytes := decoded_bytes s,
                   readstate := DTH22M_READSTATE_CHKSUMERR }) := by
    rw [sensor_decode_pulses_of_ge s h43, if_pos hsum]
  unfold sensor_parse_bytes
  rw [hdec]
  dsimp only
  split
  · exact ⟨rfl,
      fun hh => absurd hh
        (show DTH22M_READSTATE_CHKSUMERR ≠ DTH22M_READSTATE_OK by decide),
      rfl, rfl, rfl, rfl⟩
  · rename_i htrue
    exact absurd (show DTH22M_READSTATE_CHKSUMERR ≠ DTH22M_READSTATE_OK by decide)
      htrue

/-- C9 witness: `ladder_state` decodes to bytes 0,0,0,0,1 whose checksum
byte does not match; parsing yields Complete-ChecksumError and leaves the
measurement fields at their prior values. -/
theorem C9_checksum_mismatch_witness :
    5 * 8 + 3 ≤ ladder_state.num_edges ∧
    (decoded_bytes ladder_state 0 + decoded_bytes ladder_state 1 +
      decoded_bytes ladder_state 2 + decoded_bytes ladder_state 3) % 256 ≠
      decoded_bytes ladder_state 4 ∧
    (sensor_parse_bytes ladder_state).readstate = DTH22M_READSTATE_CHKSUMERR ∧
    (sensor_parse_bytes ladder_state).humidity = ladder_state.humidity :=
  ⟨by decide, by decide,
    (C9_checksum_mismatch ladder_state (by decide) (by decide)).1,
    (C9_checksum_mismatch ladder_state (by decide) (by decide)).2.2.2.2.1⟩

/--
C10: every `chardevice_open` invocation in the model returns 0 (kmalloc
is modelled as succeeding) and leaves the session phase at Idle
(DTH22M_READSTATE_NEXT) — both when `sensor_start_read` was rejected
(Busy, IOError, TooSoon) and on the full read path — so one completed
open never leaves the shared session blocked.
-/
theorem C10_open_always_resets_phase (g : dht22_globals) (now : Int)
    (minor : Nat) (dof dif : Bool) (edges : List (Int × Int)) (s : dht22_state) :
    (chardevice_open g now minor dof dif edges s).1 = 0 ∧
    (chardevice_open g now minor dof dif edges s).2.2.readstate =
      DTH22M_READSTATE_NEXT := by
  unfold chardevice_open
  dsimp only
  split
  · exact ⟨rfl, rfl⟩
  · exact ⟨rfl, rfl⟩
